import Mathlib

/-!
Shallow embedding of the hires-logger MPSC ring buffer
(src/hires-logger: shared/common.h, rt/src/rt.cpp, rt/src/rt_c.cpp,
khires/khires.c), with theorems checking the specification claims.

Machine integers are modelled as `Nat` with explicit reduction modulo
`2 ^ 64`, `2 ^ 32`, `2 ^ 16` where the C code uses `uint64_t`/`size_t`,
`uint32_t`, `uint16_t`. The entry array is modelled as a total function
from index to entry; a store is a pointwise update.
-/

namespace HiResLogger

/-- `2 ^ 64`, the modulus of `uint64_t` / 64-bit `size_t` arithmetic. -/
def U64 : Nat := 2 ^ 64

/-- `2 ^ 32`, the modulus of `uint32_t` arithmetic. -/
def U32 : Nat := 2 ^ 32

/-- `2 ^ 16`, the modulus of `uint16_t` arithmetic. -/
def U16 : Nat := 2 ^ 16

/-- C unsigned 64-bit subtraction `a - b` (wraps modulo `2 ^ 64`). -/
def usub64 (a b : Nat) : Nat := (a + (U64 - b % U64)) % U64

/-- `LOG_FLAG_VALID` from shared/common.h: set by producer when entry fully written. -/
def LOG_FLAG_VALID : Nat := 1

/-- `LOG_FLAG_KERNEL` from shared/common.h: set if logged from kernel. -/
def LOG_FLAG_KERNEL : Nat := 2

/-- `~LOG_FLAG_VALID` truncated to 16 bits (the width of the `flags` field). -/
def NOT_VALID_MASK : Nat := 0xFFFE

/-- `log_entry_t` from shared/common.h. -/
structure log_entry_t where
  timestamp : Nat
  event_id : Nat
  cpu_id : Nat
  flags : Nat
  data1 : Nat
  data2 : Nat
deriving Repr, DecidableEq

/-- Declared bit width of `log_entry_t.timestamp` (`uint64_t`). -/
def timestamp_bits : Nat := 64

/-- Declared bit width of `log_entry_t.event_id` (`uint32_t`). -/
def event_id_bits : Nat := 32

/-- Declared bit width of `log_entry_t.cpu_id` (`uint16_t` in shared/common.h). -/
def cpu_id_bits : Nat := 16

/-- Declared bit width of `log_entry_t.flags` (`uint16_t`). -/
def flags_bits : Nat := 16

/-- Declared bit width of `log_entry_t.data1` (`uint64_t`). -/
def data1_bits : Nat := 64

/-- Declared bit width of `log_entry_t.data2` (`uint64_t`). -/
def data2_bits : Nat := 64

/-- Size in bytes of `log_entry_t`, summing the declared field widths. -/
def log_entry_size_bytes : Nat :=
  timestamp_bits / 8 + event_id_bits / 8 + cpu_id_bits / 8 + flags_bits / 8 +
    data1_bits / 8 + data2_bits / 8

/-- The all-zero entry (the ring region is zero-filled at creation). -/
def zeroEntry : log_entry_t :=
  { timestamp := 0, event_id := 0, cpu_id := 0, flags := 0, data1 := 0, data2 := 0 }

/-- `shared_ring_buffer_t`: the shared control header plus the entry array
(`head`, `tail`, geometry metadata, `dropped_count`, `buffer[capacity]`).
The entry array is a total function from slot index to entry. -/
structure shared_ring_buffer_t where
  head : Nat
  tail : Nat
  shm_size_bytes_unaligned : Nat
  shm_size_bytes_aligned : Nat
  capacity : Nat
  idx_mask : Nat
  dropped_count : Nat
  buffer : Nat → log_entry_t

/-- A store to `buffer[i]`: pointwise update of the entry array. -/
def writeSlot (buf : Nat → log_entry_t) (i : Nat) (e : log_entry_t) :
    Nat → log_entry_t :=
  fun j => if j = i then e else buf j

/-- `hires_rb_meta_t`: geometry record returned by `HIRES_IOCTL_GET_RB_META`. -/
structure hires_rb_meta_t where
  capacity : Nat
  idx_mask : Nat
  shm_size_bytes_unaligned : Nat
deriving Repr, DecidableEq

/-- `HiResConn` (rt.hpp): userspace handle with the mapped buffer (or null)
and the geometry cached from the ioctl at attach time. -/
structure HiResConn where
  shm_buf : Option shared_ring_buffer_t
  rb_runtime_capacity : Nat
  rb_runtime_idx_mask : Nat
  rb_runtime_shm_size : Nat
  cycles_per_us : Nat

/-- Environment of one `HiResConn::log` call: the `clock_gettime` reading and
the result of the `SYS_getcpu` syscall (`none` = syscall failed). -/
structure LogEnv where
  monotonic_ns : Nat
  getcpu : Option Nat

/-- `HiResConn::log` (rt.cpp lines 146-207). Returns the C++ return value and
the state after the call. The fetch-add on `head` happens first; the drop
branch increments `dropped_count` and does not touch the entry; the success
branch writes the payload and then stores `flags = 0 | LOG_FLAG_VALID`. -/
def HiResConn.log (conn : HiResConn) (env : LogEnv)
    (event_id data1 data2 : Nat) : Bool × HiResConn :=
  match conn.shm_buf with
  | none => (false, conn)
  | some shm =>
    let head := shm.head
    let tail := shm.tail
    let head1 := (head + 1) % U64
    if usub64 head tail ≥ conn.rb_runtime_capacity then
      (false, { conn with
                shm_buf := some { shm with
                                  head := head1,
                                  dropped_count := (shm.dropped_count + 1) % U64 } })
    else
      let i := head &&& conn.rb_runtime_idx_mask
      let cpu : Nat := match env.getcpu with
        | some c => c
        | none => 0xFFFF
      let entry : log_entry_t :=
        { timestamp := env.monotonic_ns % U64
          event_id := event_id % U32
          cpu_id := cpu % U16
          flags := 0 ||| LOG_FLAG_VALID
          data1 := data1 % U64
          data2 := data2 % U64 }
      (true, { conn with
               shm_buf := some { shm with
                                 head := head1,
                                 buffer := writeSlot shm.buffer i entry } })

/-- Environment of one kernel `hires_log` call: the `__rdtscp` cycle reading
and the aux value it stores through the `cpu_id` pointer. -/
structure KLogEnv where
  tsc : Nat
  tsc_aux : Nat

/-- Kernel `hires_log` (khires.c lines 252-323). Returns the C return value
(`0`, `-ENOMEM = -12`, `-EIO = -5`) and the state after the call. Note the
drop condition: `current_idx == tail_val && (head_val - tail_val) >= capacity`,
where `current_idx = head_val & idx_mask`. The flags cmpxchg loop computes
`(old & ~LOG_FLAG_VALID) | LOG_FLAG_VALID | LOG_FLAG_KERNEL`. -/
def hires_log (shm : Option shared_ring_buffer_t) (env : KLogEnv)
    (event_id data1 data2 : Nat) : Int × Option shared_ring_buffer_t :=
  match shm with
  | none => (-5, none)
  | some s =>
    let head_val := s.head
    let current_idx := head_val &&& s.idx_mask
    let tail_val := s.tail
    let head1 := (head_val + 1) % U64
    if current_idx = tail_val ∧ usub64 head_val tail_val ≥ s.capacity then
      (-12, some { s with
                   head := head1,
                   dropped_count := (s.dropped_count + 1) % U64 })
    else
      let old := s.buffer current_idx
      let entry : log_entry_t :=
        { timestamp := env.tsc % U64
          event_id := event_id % U32
          cpu_id := env.tsc_aux % U16
          flags := (old.flags &&& NOT_VALID_MASK) ||| (LOG_FLAG_VALID ||| LOG_FLAG_KERNEL)
          data1 := data1 % U64
          data2 := data2 % U64 }
      (0, some { s with
                 head := head1,
                 buffer := writeSlot s.buffer current_idx entry })

/-- `max_spins` from `HiResConn::pop`: the spin budget of the VALID-flag wait. -/
def max_spins : Nat := 100

/-- The spin-wait loop of `HiResConn::pop` step 4. `obs n` is the flags value
returned by the n-th acquire load of the slot flags. The C loop gives up
after `max_spins` failed re-loads (loads 0 .. max_spins are checked);
it returns the index of the first load that observed VALID. -/
def spinWaitAux (obs : Nat → Nat) : Nat → Nat → Option Nat
  | 0, i => if obs i &&& LOG_FLAG_VALID ≠ 0 then some i else none
  | f + 1, i =>
    if obs i &&& LOG_FLAG_VALID ≠ 0 then some i else spinWaitAux obs f (i + 1)

/-- Entry point of the spin-wait loop: budget `max_spins`, first load index 0. -/
def spinWait (obs : Nat → Nat) : Option Nat := spinWaitAux obs max_spins 0

/-- `HiResConn::pop` (rt.cpp lines 209-266). `obs` models the successive
acquire loads of the slot flags inside the spin loop (in a sequential
execution they all return the stored flags, see `HiResConn.popSeq`).
Steps: null check; `tail == head` check; spin on VALID; copy the entry;
store `flags & ~LOG_FLAG_VALID`; store `tail + 1`. -/
def HiResConn.pop (conn : HiResConn) (obs : Nat → Nat) :
    Option log_entry_t × HiResConn :=
  match conn.shm_buf with
  | none => (none, conn)
  | some shm =>
    let tail := shm.tail
    let head := shm.head
    if tail = head then (none, conn)
    else
      let i := tail &&& conn.rb_runtime_idx_mask
      match spinWait obs with
      | none => (none, conn)
      | some _ =>
        let entry := shm.buffer i
        let cleared := { entry with flags := entry.flags &&& NOT_VALID_MASK }
        (some entry, { conn with
                       shm_buf := some { shm with
                                         buffer := writeSlot shm.buffer i cleared,
                                         tail := (tail + 1) % U64 } })

/-- Flags currently stored in the slot `pop` is about to read. -/
def currentSlotFlags (conn : HiResConn) : Nat :=
  match conn.shm_buf with
  | none => 0
  | some shm => (shm.buffer (shm.tail &&& conn.rb_runtime_idx_mask)).flags

/-- `HiResConn::pop` in a sequential execution: every acquire load of the
slot flags returns the value stored in the buffer. -/
def HiResConn.popSeq (conn : HiResConn) : Option log_entry_t × HiResConn :=
  conn.pop (fun _ => currentSlotFlags conn)

/-- The `i`-loop of the `HIRES_IOCTL_RESET_RB` handler: for `count` slots
starting at index `i`, replace `flags` by `flags & ~LOG_FLAG_VALID`
(the net effect of the cmpxchg loop in khires.c lines 185-192). -/
def clearValidFrom : (Nat → log_entry_t) → Nat → Nat → (Nat → log_entry_t)
  | buf, _, 0 => buf
  | buf, i, count + 1 =>
    clearValidFrom
      (writeSlot buf i { buf i with flags := (buf i).flags &&& NOT_VALID_MASK })
      (i + 1) count

/-- `HIRES_IOCTL_RESET_RB` (khires.c lines 172-195): set `head`, `tail` and
`dropped_count` to 0, then clear the VALID bit of `buffer[0 .. capacity)`. -/
def hires_ioctl_reset (s : shared_ring_buffer_t) : shared_ring_buffer_t :=
  { s with
    head := 0, tail := 0, dropped_count := 0,
    buffer := clearValidFrom s.buffer 0 s.capacity }

/-- `delay_ms` in `hires_calibrate_tsc`: the calibration sleep in milliseconds. -/
def delay_ms : Nat := 500

/-- `div64_u64`: unsigned 64-bit division (operands already below `2 ^ 64`). -/
def div64_u64 (a b : Nat) : Nat := a / b

/-- `hires_calibrate_tsc` (khires.c lines 58-89), as a function of the two
cycle readings and the measured elapsed nanoseconds (an `s64`). Returns the
computed `cycles_per_us`, which is 0 when the measured interval is
non-positive. `elapsed_tsc * 1000` is 64-bit multiplication and wraps. -/
def hires_calibrate_tsc (start_tsc end_tsc : Nat) (elapsed_ns : Int) : Nat :=
  let elapsed_tsc := usub64 end_tsc start_tsc
  if elapsed_ns ≤ 0 then 0
  else div64_u64 (elapsed_tsc * 1000 % U64) elapsed_ns.toNat

/-- `HIRES_IOCTL_GET_TSC_CYCLE_PER_MS` handler (khires.c lines 216-231):
fails with `-EFAULT = -14` when the stored `cycles_per_us` is 0, otherwise
returns the stored value to the caller. -/
def hires_ioctl_get_cycles_per_us (cycles_per_us : Nat) : Except Int Nat :=
  if cycles_per_us = 0 then Except.error (-14) else Except.ok cycles_per_us

/-- `PROFILER_CACHE_LINE_SIZE` from shared/common.h. -/
def PROFILER_CACHE_LINE_SIZE : Nat := 64

/-- `RING_BUFFER_LOG2_SIZE` from shared/common.h. -/
def RING_BUFFER_LOG2_SIZE : Nat := 16

/-- `RING_BUFFER_SIZE = 1 << RING_BUFFER_LOG2_SIZE`. -/
def RING_BUFFER_SIZE : Nat := 2 ^ RING_BUFFER_LOG2_SIZE

/-- Size in bytes of the control header (three cache lines: head line,
tail line, metadata line), per the shared layout. -/
def SHARED_RING_BUFFER_CTRL_SIZE : Nat := 3 * PROFILER_CACHE_LINE_SIZE

/-- `SHARED_RING_BUFFER_TOTAL_SIZE`: control header plus the entry array. -/
def SHARED_RING_BUFFER_TOTAL_SIZE : Nat :=
  SHARED_RING_BUFFER_CTRL_SIZE + RING_BUFFER_SIZE * log_entry_size_bytes

/-- Environment of an attach: which OS-level steps of the `HiResConn`
constructor succeed, and what the device reports.
`kmod_cycles_ioctl = none` means the `HIRES_IOCTL_GET_TSC_CYCLE_PER_US`
ioctl fails, in which case `get_kmod_cycles_per_us` returns 0. -/
structure AttachEnv where
  open_ok : Bool
  rb_meta : Option hires_rb_meta_t
  kmod_cycles_ioctl : Option Nat
  mmap_ok : Bool
  shm : shared_ring_buffer_t

/-- The exceptions the `HiResConn` constructor can throw:
`systemError` models `std::system_error` thrown by `throw_system_error`
(carrying errno), `hiresError` models `HiResLogger::HiResError`. -/
inductive AttachError where
  | systemError (context : String)
  | hiresError (message : String)
deriving Repr, DecidableEq

/-- `get_kmod_cycles_per_us` (rt.cpp lines 133-144): 0 on ioctl failure. -/
def get_kmod_cycles_per_us (env : AttachEnv) : Nat :=
  match env.kmod_cycles_ioctl with
  | some c => c
  | none => 0

/-- The `HiResConn` constructor (rt.cpp lines 38-104): static size check,
open the device, `HIRES_IOCTL_GET_RB_META`, cache the geometry, cache
`get_kmod_cycles_per_us()` (with no failure check), then mmap. -/
def HiResConn.attach (env : AttachEnv) : Except AttachError HiResConn :=
  if SHARED_RING_BUFFER_TOTAL_SIZE < SHARED_RING_BUFFER_CTRL_SIZE then
    Except.error (AttachError.hiresError "Invalid shared buffer size macro definition")
  else if env.open_ok = false then
    Except.error (AttachError.systemError "Failed to open device")
  else
    match env.rb_meta with
    | none =>
      Except.error (AttachError.hiresError "Failed to get ring buffer metadata from device")
    | some meta =>
      let cycles := get_kmod_cycles_per_us env
      if env.mmap_ok = false then
        Except.error (AttachError.systemError "Failed to mmap device")
      else
        Except.ok
          { shm_buf := some env.shm
            rb_runtime_capacity := meta.capacity
            rb_runtime_idx_mask := meta.idx_mask
            rb_runtime_shm_size := meta.shm_size_bytes_unaligned
            cycles_per_us := cycles }

/-- `hires_connect` (rt_c.cpp lines 37-54): clears the thread-local error
message, runs the constructor, returns the handle on success; on a
`HiResError` it stores the exception message and returns null; any other
exception (in particular the `std::system_error` from open and mmap
failures) is caught by the catch-all and stored as the generic message. -/
def hires_connect (env : AttachEnv) : Option HiResConn × String :=
  match HiResConn.attach env with
  | Except.ok conn => (some conn, "")
  | Except.error (AttachError.hiresError msg) => (none, msg)
  | Except.error (AttachError.systemError _) =>
    (none, "Unknown exception during connect")

/-- `hires_log` C wrapper (rt_c.cpp lines 65-83): null-handle check with the
thread-local error message, then `HiResConn::log`. The result is the C
return value, the handle state after the call, and the stored message. -/
def hires_log_c (handle : Option HiResConn) (env : LogEnv)
    (event_id data1 data2 : Nat) : Bool × Option HiResConn × String :=
  match handle with
  | none => (false, none, "Invalid handle passed to profiler_log")
  | some conn =>
    let r := conn.log env event_id data1 data2
    (r.1, some r.2, "")

/-- `hires_pop` C wrapper (rt_c.cpp lines 85-112): null-handle and
null-entry-pointer checks with the thread-local error message, then
`HiResConn::pop`; returns true exactly when an entry was popped. -/
def hires_pop_c (handle : Option HiResConn) (entry_ptr_null : Bool)
    (obs : Nat → Nat) : Bool × Option HiResConn × String :=
  match handle with
  | none => (false, none, "Invalid handle passed to hires_pop")
  | some conn =>
    if entry_ptr_null then
      (false, some conn, "NULL entry pointer passed to hires_pop")
    else
      let r := conn.pop obs
      (r.1.isSome, some r.2, "")

/-- Observation: the `head` field of the mapped ring of a handle (0 if the
handle has no mapping). -/
def shmHead (conn : HiResConn) : Nat :=
  match conn.shm_buf with
  | none => 0
  | some shm => shm.head

/-- Observation: the `tail` field of the mapped ring of a handle. -/
def shmTail (conn : HiResConn) : Nat :=
  match conn.shm_buf with
  | none => 0
  | some shm => shm.tail

/-- Observation: the `dropped_count` field of the mapped ring of a handle. -/
def shmDropped (conn : HiResConn) : Nat :=
  match conn.shm_buf with
  | none => 0
  | some shm => shm.dropped_count

/-- Observation: the entry at index `i` of the mapped ring of a handle. -/
def shmBufferAt (conn : HiResConn) (i : Nat) : log_entry_t :=
  match conn.shm_buf with
  | none => zeroEntry
  | some shm => shm.buffer i

/-- Observation: the `head` of an optional ring (kernel side). -/
def ringHead (o : Option shared_ring_buffer_t) : Nat :=
  match o with
  | none => 0
  | some s => s.head

/-- Observation: the `dropped_count` of an optional ring (kernel side). -/
def ringDropped (o : Option shared_ring_buffer_t) : Nat :=
  match o with
  | none => 0
  | some s => s.dropped_count

/-- Observation: the entry at index `i` of an optional ring (kernel side). -/
def ringBufferAt (o : Option shared_ring_buffer_t) (i : Nat) : log_entry_t :=
  match o with
  | none => zeroEntry
  | some s => s.buffer i

/-- A concrete ring with the given geometry, counters and entry array;
the two size fields are fixed arbitrary metadata values. -/
def mkRing (cap mask h t : Nat) (buf : Nat → log_entry_t) :
    shared_ring_buffer_t :=
  { head := h, tail := t, shm_size_bytes_unaligned := 256,
    shm_size_bytes_aligned := 4096, capacity := cap, idx_mask := mask,
    dropped_count := 0, buffer := buf }

/-- A handle attached to the given ring, with the geometry cached from it. -/
def mkConn (r : shared_ring_buffer_t) : HiResConn :=
  { shm_buf := some r, rb_runtime_capacity := r.capacity,
    rb_runtime_idx_mask := r.idx_mask, rb_runtime_shm_size := 256,
    cycles_per_us := 2400 }

/-- The empty capacity-2 ring: `head = tail = 0`, zero-filled entries. -/
def zeroRing2 : shared_ring_buffer_t := mkRing 2 1 0 0 (fun _ => zeroEntry)

/-- A call environment for scenario runs: distinct timestamps, CPU 3. -/
def scnEnv (k : Nat) : LogEnv := { monotonic_ns := 1000 + k, getcpu := some 3 }

/-- C2 scenario, step 1: `publish(1)` on the empty capacity-2 ring. -/
def c2AfterLog1 : HiResConn := ((mkConn zeroRing2).log (scnEnv 1) 1 11 0).2

/-- C2 scenario, step 2: `publish(2)`. -/
def c2AfterLog2 : HiResConn := (c2AfterLog1.log (scnEnv 2) 2 22 0).2

/-- C2 scenario, step 3: first `pop`. -/
def c2Pop1 : Option log_entry_t × HiResConn := c2AfterLog2.popSeq

/-- C2 scenario, step 4: `publish(3)` (wraps to slot 0). -/
def c2AfterLog3 : HiResConn := (c2Pop1.2.log (scnEnv 3) 3 33 0).2

/-- C2 scenario, step 5: second `pop`. -/
def c2Pop2 : Option log_entry_t × HiResConn := c2AfterLog3.popSeq

/-- C2 scenario, step 6: third `pop`. -/
def c2Pop3 : Option log_entry_t × HiResConn := c2Pop2.2.popSeq

/-- C2 scenario, step 7: fourth `pop` (ring now empty). -/
def c2Pop4 : Option log_entry_t × HiResConn := c2Pop3.2.popSeq

/-- An unconsumed (VALID) entry used to build full rings. -/
def validEntry9 : log_entry_t :=
  { timestamp := 5, event_id := 9, cpu_id := 0, flags := LOG_FLAG_VALID,
    data1 := 55, data2 := 66 }

/-- C1 failing state: capacity-2 ring with `head = 4`, `tail = 2` — two
unconsumed entries, so the ring is full (`head - tail = capacity`). -/
def c1Ring : shared_ring_buffer_t := mkRing 2 1 4 2 (fun _ => validEntry9)

/-- Kernel call environment for the C1 failing state. -/
def c1KEnv : KLogEnv := { tsc := 777, tsc_aux := 4 }

/-- Userspace call environment for the C1 failing state. -/
def c1LogEnv : LogEnv := { monotonic_ns := 777, getcpu := some 4 }

/-- C5 counterexample state: the entry written by `log` when `SYS_getcpu`
reports CPU `0x12345` (a value above 16 bits). -/
def c5After : HiResConn :=
  ((mkConn zeroRing2).log { monotonic_ns := 0, getcpu := some 0x12345 } 7 0 0).2

/-- Geometry record used by the attach scenarios. -/
def c8Meta : hires_rb_meta_t :=
  { capacity := 2, idx_mask := 1, shm_size_bytes_unaligned := 256 }

/-- Attach environment where only the calibration ioctl fails. -/
def c8CalFailEnv : AttachEnv :=
  { open_ok := true, rb_meta := some c8Meta, kmod_cycles_ioctl := none,
    mmap_ok := true, shm := zeroRing2 }

/-- Attach environment where opening the device fails. -/
def c8OpenFailEnv : AttachEnv :=
  { open_ok := false, rb_meta := some c8Meta, kmod_cycles_ioctl := some 2400,
    mmap_ok := true, shm := zeroRing2 }

/-- Witness ring for C3: one reserved-but-unpublished slot
(`head = 1`, `tail = 0`, slot 0 not VALID). -/
def c3Ring : shared_ring_buffer_t := mkRing 2 1 1 0 (fun _ => zeroEntry)

/-- Observation stream for the C3 witness: every load sees flags 0. -/
def c3Obs : Nat → Nat := fun _ => 0

/-- A detached handle (null mapping) for the C9 witness. -/
def connNull : HiResConn :=
  { shm_buf := none, rb_runtime_capacity := 0, rb_runtime_idx_mask := 0,
    rb_runtime_shm_size := 0, cycles_per_us := 0 }

/-- A published kernel entry (VALID and KERNEL bits set) for the C10 witness. -/
def kernelEntry : log_entry_t :=
  { timestamp := 40, event_id := 100, cpu_id := 2,
    flags := LOG_FLAG_VALID ||| LOG_FLAG_KERNEL, data1 := 7, data2 := 13 }

/-- Witness ring for C10: one published kernel entry at slot 0. -/
def c10Ring : shared_ring_buffer_t := mkRing 2 1 1 0 (fun _ => kernelEntry)

/-- Observation stream for the C10 witness: every load sees the slot flags. -/
def c10Obs : Nat → Nat := fun _ => LOG_FLAG_VALID ||| LOG_FLAG_KERNEL

/-- Witness ring for C6: a used capacity-2 ring with stale VALID entries. -/
def c6Ring : shared_ring_buffer_t := mkRing 2 1 5 3 (fun _ => validEntry9)

/-- If every flags load up to the remaining budget misses VALID, the spin
loop gives up. -/
theorem spinWaitAux_none (obs : Nat → Nat) :
    ∀ (fuel i : Nat), (∀ j, i ≤ j → j ≤ i + fuel → obs j &&& LOG_FLAG_VALID = 0) →
      spinWaitAux obs fuel i = none := by
  intro fuel
  induction fuel with
  | zero =>
    intro i h
    simp [spinWaitAux, h i le_rfl (by omega)]
  | succ f ih =>
    intro i h
    have h0 : obs i &&& LOG_FLAG_VALID = 0 := h i le_rfl (by omega)
    simp only [spinWaitAux, h0, ne_eq, not_true_eq_false, if_false]
    exact ih (i + 1) (fun j hj1 hj2 => h j (by omega) (by omega))

/-- If no flags load within the whole spin budget observes VALID, the spin
wait returns `none`. -/
theorem spinWait_none (obs : Nat → Nat)
    (h : ∀ j, j ≤ max_spins → obs j &&& LOG_FLAG_VALID = 0) :
    spinWait obs = none :=
  spinWaitAux_none obs max_spins 0 (fun j h1 h2 => h j (by omega))

/-- Slots below the start index are untouched by the reset clearing loop. -/
theorem clearValidFrom_lt (j : Nat) :
    ∀ (count i : Nat) (buf : Nat → log_entry_t), j < i →
      clearValidFrom buf i count j = buf j := by
  intro count
  induction count with
  | zero => intro i buf _; rfl
  | succ c ih =>
    intro i buf h
    simp only [clearValidFrom]
    rw [ih (i + 1) _ (by omega)]
    simp [writeSlot, show j ≠ i from by omega]

/-- Slots in the cleared range get their flags masked by `~LOG_FLAG_VALID`. -/
theorem clearValidFrom_in (j : Nat) :
    ∀ (count i : Nat) (buf : Nat → log_entry_t), i ≤ j → j < i + count →
      clearValidFrom buf i count j =
        { buf j with flags := (buf j).flags &&& NOT_VALID_MASK } := by
  intro count
  induction count with
  | zero => intro i buf h1 h2; omega
  | succ c ih =>
    intro i buf h1 h2
    simp only [clearValidFrom]
    by_cases hj : j = i
    · subst hj
      rw [clearValidFrom_lt j c (j + 1) _ (by omega)]
      simp [writeSlot]
    · rw [ih (i + 1) _ (by omega) (by omega)]
      simp [writeSlot, hj]

/-- Masking flags with `~LOG_FLAG_VALID` clears the VALID bit. -/
theorem and_notValid_valid (x : Nat) :
    (x &&& NOT_VALID_MASK) &&& LOG_FLAG_VALID = 0 := by
  show (x &&& 0xFFFE) &&& 1 = 0
  rw [Nat.and_assoc]
  norm_num

/-- Masking flags with `~LOG_FLAG_VALID` preserves the KERNEL bit. -/
theorem and_notValid_kernel (x : Nat) :
    (x &&& NOT_VALID_MASK) &&& LOG_FLAG_KERNEL = x &&& LOG_FLAG_KERNEL := by
  show (x &&& 0xFFFE) &&& 2 = x &&& 2
  rw [Nat.and_assoc, show (0xFFFE &&& 2 : Nat) = 2 from by decide]

/-- C1: the claim states that `publish` drops (and counts the drop) exactly
when `head - tail ≥ capacity`. The kernel `hires_log` violates the
forward direction: on the full capacity-2 ring with `head = 4`, `tail = 2`
(`head - tail = 2 ≥ capacity`), its drop condition
`(head & idx_mask) == tail && head - tail ≥ capacity` is false
(`4 &&& 1 = 0 ≠ 2`), so it returns 0 (success), leaves `dropped_count`
untouched, and overwrites the unconsumed slot 0 — contradicting its own
doc comment (`-ENOMEM if buffer is full`). The userspace `HiResConn::log`
on the same state drops and increments `dropped_count` by 1 as claimed. -/
theorem c1_kernel_log_misses_drop_on_full_ring :
    usub64 c1Ring.head c1Ring.tail ≥ c1Ring.capacity ∧
    (hires_log (some c1Ring) c1KEnv 7 8 9).1 = 0 ∧
    ringDropped (hires_log (some c1Ring) c1KEnv 7 8 9).2 = c1Ring.dropped_count ∧
    (ringBufferAt (hires_log (some c1Ring) c1KEnv 7 8 9).2 0).event_id = 7 ∧
    ((mkConn c1Ring).log c1LogEnv 7 8 9).1 = false ∧
    shmDropped ((mkConn c1Ring).log c1LogEnv 7 8 9).2 = c1Ring.dropped_count + 1 := by
  decide

/-- C2: wrap-around scenario on a capacity-2 ring starting from
`head = tail = 0`: publish(1), publish(2), pop, publish(3), pop, pop, pop
yield entries 1, 2, 3 and then `None`, leaving `head = 3` and `tail = 3`. -/
theorem c2_wraparound_scenario :
    c2Pop1.1.map log_entry_t.event_id = some 1 ∧
    c2Pop2.1.map log_entry_t.event_id = some 2 ∧
    c2Pop3.1.map log_entry_t.event_id = some 3 ∧
    c2Pop1.1.map log_entry_t.data1 = some 11 ∧
    c2Pop2.1.map log_entry_t.data1 = some 22 ∧
    c2Pop3.1.map log_entry_t.data1 = some 33 ∧
    c2Pop4.1 = none ∧
    shmHead c2Pop4.2 = 3 ∧ shmTail c2Pop4.2 = 3 := by
  decide

/-- C3: `pop()` returns `Empty` when the loaded tail equals the loaded head;
and when no acquire load of the slot flags within the spin budget of
`max_spins = 100` yields observes the VALID bit, it returns `Empty` leaving
the connection state — in particular `tail` — unchanged. -/
theorem c3_pop_empty_and_bounded_spin (conn : HiResConn)
    (shm : shared_ring_buffer_t) (obs : Nat → Nat)
    (hshm : conn.shm_buf = some shm) :
    (shm.tail = shm.head → conn.pop obs = (none, conn)) ∧
    ((∀ j, j ≤ max_spins → obs j &&& LOG_FLAG_VALID = 0) →
      conn.pop obs = (none, conn)) := by
  constructor
  · intro he
    unfold HiResConn.pop
    rw [hshm]
    simp [he]
  · intro hobs
    unfold HiResConn.pop
    rw [hshm]
    by_cases he : shm.tail = shm.head
    · simp [he]
    · simp [he, spinWait_none obs hobs]

/-- Witness for C3: on a ring with one reserved-but-unpublished slot
(`head = 1`, `tail = 0`, flags 0) and an observation stream that never
shows VALID, `pop` returns `none` and leaves the state unchanged. -/
theorem c3_pop_empty_and_bounded_spin_witness :
    (mkConn c3Ring).pop c3Obs = (none, mkConn c3Ring) :=
  (c3_pop_empty_and_bounded_spin (mkConn c3Ring) c3Ring c3Obs rfl).2
    (fun j hj => by show (0 : Nat) &&& LOG_FLAG_VALID = 0; decide)

/-- C4: both producers advance `head` by exactly 1 via the fetch-add, on the
success path and on the drop path alike (no rollback), so observed head
values never decrease. Stated below the 64-bit wrap point, where the
fetch-add does not overflow. -/
theorem c4_monotonic_head_no_rollback
    (conn : HiResConn) (shm : shared_ring_buffer_t) (env : LogEnv)
    (kshm : shared_ring_buffer_t) (kenv : KLogEnv)
    (e d1 d2 ke kd1 kd2 : Nat)
    (hshm : conn.shm_buf = some shm)
    (hw : shm.head + 1 < U64) (hkw : kshm.head + 1 < U64) :
    shmHead (conn.log env e d1 d2).2 = shm.head + 1 ∧
    shm.head ≤ shmHead (conn.log env e d1 d2).2 ∧
    ringHead (hires_log (some kshm) kenv ke kd1 kd2).2 = kshm.head + 1 ∧
    kshm.head ≤ ringHead (hires_log (some kshm) kenv ke kd1 kd2).2 := by
  have hu : shmHead (conn.log env e d1 d2).2 = shm.head + 1 := by
    unfold HiResConn.log
    rw [hshm]
    by_cases hf : usub64 shm.head shm.tail ≥ conn.rb_runtime_capacity
    · simp [hf, shmHead, Nat.mod_eq_of_lt hw]
    · simp [hf, shmHead, Nat.mod_eq_of_lt hw]
  have hk : ringHead (hires_log (some kshm) kenv ke kd1 kd2).2 = kshm.head + 1 := by
    unfold hires_log
    by_cases hf : kshm.head &&& kshm.idx_mask = kshm.tail ∧
        usub64 kshm.head kshm.tail ≥ kshm.capacity
    · simp [hf, ringHead, Nat.mod_eq_of_lt hkw]
    · simp [hf, ringHead, Nat.mod_eq_of_lt hkw]
  exact ⟨hu, hu ▸ Nat.le_succ shm.head, hk, hk ▸ Nat.le_succ kshm.head⟩

/-- Witness for C4: on the empty capacity-2 ring (`head = 0`), one userspace
publish and one kernel publish both leave `head = 1`. -/
theorem c4_monotonic_head_no_rollback_witness :
    shmHead ((mkConn zeroRing2).log (scnEnv 1) 1 11 0).2 = zeroRing2.head + 1 ∧
    zeroRing2.head ≤ shmHead ((mkConn zeroRing2).log (scnEnv 1) 1 11 0).2 ∧
    ringHead (hires_log (some zeroRing2) c1KEnv 1 11 0).2 = zeroRing2.head + 1 ∧
    zeroRing2.head ≤ ringHead (hires_log (some zeroRing2) c1KEnv 1 11 0).2 :=
  c4_monotonic_head_no_rollback (mkConn zeroRing2) zeroRing2 (scnEnv 1)
    zeroRing2 c1KEnv 1 11 0 1 11 0 rfl (by decide) (by decide)

/-- C5 counterexample: the `cpu_id` field is declared `uint16_t` in
shared/common.h, not 32-bit as claimed: `cpu_id_bits = 16 ≠ 32`, and a
publish that sees CPU `0x12345` from `SYS_getcpu` stores `0x2345`
(the value truncated to 16 bits), not `0x12345 = 0x12345 % 2^32`. -/
theorem c5_cpu_id_is_not_32bit :
    cpu_id_bits ≠ 32 ∧
    (shmBufferAt c5After 0).cpu_id = 0x2345 ∧
    (shmBufferAt c5After 0).cpu_id ≠ 0x12345 % U32 := by
  decide

/-- C5 amended: the `cpu_id` field is 16-bit (stores are truncated modulo
`2^16`), `0xFFFF` is written when the CPU cannot be determined
(`SYS_getcpu` failure), and the whole record — timestamp 64-bit, event_id
32-bit, cpu_id 16-bit, flags 16-bit, data1 and data2 64-bit each — totals
32 bytes. -/
theorem c5_entry_layout_amended
    (conn : HiResConn) (shm : shared_ring_buffer_t) (env : LogEnv)
    (e d1 d2 : Nat) (hshm : conn.shm_buf = some shm)
    (hfull : ¬ usub64 shm.head shm.tail ≥ conn.rb_runtime_capacity) :
    log_entry_size_bytes = 32 ∧ cpu_id_bits = 16 ∧
    (shmBufferAt (conn.log env e d1 d2).2
        (shm.head &&& conn.rb_runtime_idx_mask)).cpu_id
      = (match env.getcpu with | some c => c | none => 0xFFFF) % U16 ∧
    (env.getcpu = none →
      (shmBufferAt (conn.log env e d1 d2).2
          (shm.head &&& conn.rb_runtime_idx_mask)).cpu_id = 0xFFFF) := by
  have hw : (shmBufferAt (conn.log env e d1 d2).2
      (shm.head &&& conn.rb_runtime_idx_mask)).cpu_id
      = (match env.getcpu with | some c => c | none => 0xFFFF) % U16 := by
    unfold HiResConn.log
    rw [hshm]
    simp [hfull, shmBufferAt, writeSlot]
  refine ⟨by decide, by decide, hw, ?_⟩
  intro hcpu
  rw [hw, hcpu]
  decide

/-- Witness for C5 amended: publishing on the empty capacity-2 ring with a
failed `SYS_getcpu` stores `cpu_id = 0xFFFF` in slot 0. -/
theorem c5_entry_layout_amended_witness :
    log_entry_size_bytes = 32 ∧ cpu_id_bits = 16 ∧
    (shmBufferAt ((mkConn zeroRing2).log
        { monotonic_ns := 9, getcpu := none } 1 0 0).2
        (zeroRing2.head &&& (mkConn zeroRing2).rb_runtime_idx_mask)).cpu_id
      = 0xFFFF := by
  obtain ⟨hA, hB, _, hD⟩ := c5_entry_layout_amended (mkConn zeroRing2) zeroRing2
    { monotonic_ns := 9, getcpu := none } 1 0 0 rfl (by decide)
  exact ⟨hA, hB, hD rfl⟩

/-- C6: `Reset` zeroes `head`, `tail` and `dropped_count`, clears the VALID
bit of every slot of the entry array, leaves the geometry fields
(`capacity`, `idx_mask`, the two size fields) unchanged, and a quiesced
`pop()` right after the reset returns `None`. -/
theorem c6_reset_semantics (s : shared_ring_buffer_t) :
    (hires_ioctl_reset s).head = 0 ∧
    (hires_ioctl_reset s).tail = 0 ∧
    (hires_ioctl_reset s).dropped_count = 0 ∧
    (hires_ioctl_reset s).capacity = s.capacity ∧
    (hires_ioctl_reset s).idx_mask = s.idx_mask ∧
    (hires_ioctl_reset s).shm_size_bytes_unaligned = s.shm_size_bytes_unaligned ∧
    (hires_ioctl_reset s).shm_size_bytes_aligned = s.shm_size_bytes_aligned ∧
    (∀ i, i < s.capacity →
      ((hires_ioctl_reset s).buffer i).flags &&& LOG_FLAG_VALID = 0) ∧
    (∀ conn : HiResConn, conn.shm_buf = some (hires_ioctl_reset s) →
      conn.popSeq = (none, conn)) := by
  refine ⟨rfl, rfl, rfl, rfl, rfl, rfl, rfl, ?_, ?_⟩
  · intro i hi
    show (clearValidFrom s.buffer 0 s.capacity i).flags &&& LOG_FLAG_VALID = 0
    rw [clearValidFrom_in i s.capacity 0 s.buffer (by omega) (by omega)]
    exact and_notValid_valid (s.buffer i).flags
  · intro conn hc
    unfold HiResConn.popSeq HiResConn.pop
    rw [hc]
    simp [hires_ioctl_reset]

/-- Witness for C6: resetting a used capacity-2 ring (`head = 5`, `tail = 3`,
stale VALID entries) zeroes the counters, clears VALID in both slots, and
the next `pop` on a handle over the reset ring returns `none`. -/
theorem c6_reset_semantics_witness :
    (hires_ioctl_reset c6Ring).head = 0 ∧
    (hires_ioctl_reset c6Ring).tail = 0 ∧
    (hires_ioctl_reset c6Ring).dropped_count = 0 ∧
    ((hires_ioctl_reset c6Ring).buffer 0).flags &&& LOG_FLAG_VALID = 0 ∧
    ((hires_ioctl_reset c6Ring).buffer 1).flags &&& LOG_FLAG_VALID = 0 ∧
    (mkConn (hires_ioctl_reset c6Ring)).popSeq
      = (none, mkConn (hires_ioctl_reset c6Ring)) := by
  obtain ⟨h1, h2, h3, _, _, _, _, h8, h9⟩ := c6_reset_semantics c6Ring
  exact ⟨h1, h2, h3, h8 0 (by decide), h8 1 (by decide),
    h9 (mkConn (hires_ioctl_reset c6Ring)) rfl⟩

/-- C7: calibration sleeps `delay_ms = 500` milliseconds and computes the
integer `cycles_per_us` as elapsed cycles times 1000 divided by elapsed
nanoseconds (64-bit arithmetic); it reports failure (returns 0) when the
measured interval is non-positive; and the `GetCyclesPerMicrosecond` ioctl
fails with `-EFAULT` exactly when the stored value is 0 (calibration did
not complete), returning the stored value otherwise. -/
theorem c7_calibration_and_sideband (st et : Nat) (ns : Int) (cyc : Nat) :
    delay_ms = 500 ∧
    (0 < ns →
      hires_calibrate_tsc st et ns = usub64 et st * 1000 % U64 / ns.toNat) ∧
    (ns ≤ 0 → hires_calibrate_tsc st et ns = 0) ∧
    (hires_ioctl_get_cycles_per_us cyc = Except.error (-14) ↔ cyc = 0) ∧
    (cyc ≠ 0 → hires_ioctl_get_cycles_per_us cyc = Except.ok cyc) := by
  refine ⟨rfl, ?_, ?_, ?_, ?_⟩
  · intro h
    unfold hires_calibrate_tsc div64_u64
    simp [show ¬ ns ≤ 0 from by omega]
  · intro h
    unfold hires_calibrate_tsc
    simp [h]
  · unfold hires_ioctl_get_cycles_per_us
    by_cases h : cyc = 0 <;> simp [h]
  · intro h
    unfold hires_ioctl_get_cycles_per_us
    simp [h]

/-- Witness for C7: a 500 ms interval measuring 1,200,000,000 cycles over
500,000,000 ns calibrates to 2400 cycles/µs; a non-positive interval
returns 0; the ioctl fails on stored 0 and returns stored 2400. -/
theorem c7_calibration_and_sideband_witness :
    hires_calibrate_tsc 0 1200000000 500000000 = 2400 ∧
    hires_calibrate_tsc 0 1200000000 (-1) = 0 ∧
    hires_ioctl_get_cycles_per_us 0 = Except.error (-14) ∧
    hires_ioctl_get_cycles_per_us 2400 = Except.ok 2400 := by
  refine ⟨?_, ?_, ?_, ?_⟩
  · rw [(c7_calibration_and_sideband 0 1200000000 500000000 2400).2.1 (by decide)]
    decide
  · exact (c7_calibration_and_sideband 0 1200000000 (-1) 2400).2.2.1 (by decide)
  · exact ((c7_calibration_and_sideband 0 0 1 0).2.2.2.1).mpr rfl
  · exact (c7_calibration_and_sideband 0 0 1 2400).2.2.2.2 (by decide)

/-- C8 counterexample: the claim says calibration unavailability is an attach
failure surfaced through `hires_connect` returning NULL. In the code,
`get_kmod_cycles_per_us` returns 0 on ioctl failure and the constructor
caches it without any check: with only the calibration ioctl failing,
`hires_connect` returns a non-null handle whose `cycles_per_us` is 0. -/
theorem c8_calibration_unavailable_still_attaches :
    ((hires_connect c8CalFailEnv).1).isSome = true ∧
    Option.map HiResConn.cycles_per_us (hires_connect c8CalFailEnv).1
      = some 0 := by
  decide

/-- C8 amended: `hires_connect` returns NULL with a non-empty retrievable
error message exactly when the device cannot be opened, the geometry
metadata ioctl fails, or the mmap fails; calibration unavailability does
not fail attach — the handle is returned with `cycles_per_us` cached
as 0. (The open and mmap failures reach the wrapper as `std::system_error`
and are reported through the generic catch-all message.) -/
theorem c8_attach_failure_modes_amended (env : AttachEnv) :
    ((hires_connect env).1 = none ↔
      (env.open_ok = false ∨ env.rb_meta = none ∨ env.mmap_ok = false)) ∧
    ((hires_connect env).1 = none → (hires_connect env).2 ≠ "") ∧
    (∀ m, env.rb_meta = some m → env.kmod_cycles_ioctl = none →
      env.open_ok = true → env.mmap_ok = true →
      Option.map HiResConn.cycles_per_us (hires_connect env).1 = some 0) := by
  obtain ⟨o, meta, cyc, mm, shm⟩ := env
  unfold hires_connect HiResConn.attach get_kmod_cycles_per_us
  have hsz : ¬ SHARED_RING_BUFFER_TOTAL_SIZE < SHARED_RING_BUFFER_CTRL_SIZE := by
    decide
  cases o <;> cases mm <;> cases meta <;> cases cyc <;>
    simp [hsz]

/-- Witness for C8 amended: with only the calibration ioctl failing the
returned handle carries `cycles_per_us = 0`; with the device open failing
`hires_connect` returns null. -/
theorem c8_attach_failure_modes_amended_witness :
    Option.map HiResConn.cycles_per_us (hires_connect c8CalFailEnv).1
      = some 0 ∧
    (hires_connect c8OpenFailEnv).1 = none :=
  ⟨(c8_attach_failure_modes_amended c8CalFailEnv).2.2 c8Meta rfl rfl rfl rfl,
   ((c8_attach_failure_modes_amended c8OpenFailEnv).1).mpr (Or.inl rfl)⟩

/-- C9: on a handle with a null mapping, `log` returns false and `pop`
returns `nullopt` with the state untouched; and the C wrappers reject a
NULL handle (both wrappers) and a NULL entry pointer (`hires_pop`),
returning false with the thread-local error message set. -/
theorem c9_null_handle_and_null_pointer_safety
    (conn : HiResConn) (env : LogEnv) (obs : Nat → Nat) (e d1 d2 : Nat)
    (hnull : conn.shm_buf = none) :
    conn.log env e d1 d2 = (false, conn) ∧
    conn.pop obs = (none, conn) ∧
    hires_log_c none env e d1 d2
      = (false, none, "Invalid handle passed to profiler_log") ∧
    hires_pop_c none false obs
      = (false, none, "Invalid handle passed to hires_pop") ∧
    hires_pop_c (some conn) true obs
      = (false, some conn, "NULL entry pointer passed to hires_pop") := by
  refine ⟨?_, ?_, rfl, rfl, rfl⟩
  · unfold HiResConn.log
    rw [hnull]
  · unfold HiResConn.pop
    rw [hnull]

/-- Witness for C9: the checks evaluated on a concrete detached handle. -/
theorem c9_null_handle_and_null_pointer_safety_witness :
    connNull.log (scnEnv 1) 1 0 0 = (false, connNull) ∧
    connNull.pop c3Obs = (none, connNull) ∧
    hires_log_c none (scnEnv 1) 1 0 0
      = (false, none, "Invalid handle passed to profiler_log") ∧
    hires_pop_c none false c3Obs
      = (false, none, "Invalid handle passed to hires_pop") ∧
    hires_pop_c (some connNull) true c3Obs
      = (false, some connNull, "NULL entry pointer passed to hires_pop") :=
  c9_null_handle_and_null_pointer_safety connNull (scnEnv 1) c3Obs 1 0 0 rfl

/-- C10: when `pop()` returns an entry, the returned entry is the consumed
slot as stored, the consumed slot keeps its payload and loses exactly the
VALID bit of its flags (all other bits, including KERNEL, preserved),
`tail` advances by exactly 1 (modulo 2^64, hence by 1 below the wrap
point), and everything else — `head`, `dropped_count`, the geometry
fields, every other slot, and the cached handle fields — is unchanged. -/
theorem c10_pop_frame_conditions
    (conn conn2 : HiResConn) (shm : shared_ring_buffer_t)
    (obs : Nat → Nat) (e : log_entry_t)
    (hshm : conn.shm_buf = some shm)
    (hpop : conn.pop obs = (some e, conn2)) :
    ∃ shm2 : shared_ring_buffer_t,
      conn2.shm_buf = some shm2 ∧
      e = shm.buffer (shm.tail &&& conn.rb_runtime_idx_mask) ∧
      shm2.tail = (shm.tail + 1) % U64 ∧
      (shm.tail + 1 < U64 → shm2.tail = shm.tail + 1) ∧
      shm2.head = shm.head ∧
      shm2.dropped_count = shm.dropped_count ∧
      shm2.capacity = shm.capacity ∧
      shm2.idx_mask = shm.idx_mask ∧
      shm2.shm_size_bytes_unaligned = shm.shm_size_bytes_unaligned ∧
      shm2.shm_size_bytes_aligned = shm.shm_size_bytes_aligned ∧
      shm2.buffer (shm.tail &&& conn.rb_runtime_idx_mask)
        = { shm.buffer (shm.tail &&& conn.rb_runtime_idx_mask) with
            flags := (shm.buffer (shm.tail &&& conn.rb_runtime_idx_mask)).flags
              &&& NOT_VALID_MASK } ∧
      (shm2.buffer (shm.tail &&& conn.rb_runtime_idx_mask)).flags
        &&& LOG_FLAG_VALID = 0 ∧
      (shm2.buffer (shm.tail &&& conn.rb_runtime_idx_mask)).flags
          &&& LOG_FLAG_KERNEL
        = (shm.buffer (shm.tail &&& conn.rb_runtime_idx_mask)).flags
          &&& LOG_FLAG_KERNEL ∧
      (∀ j, j ≠ shm.tail &&& conn.rb_runtime_idx_mask →
        shm2.buffer j = shm.buffer j) ∧
      conn2.rb_runtime_capacity = conn.rb_runtime_capacity ∧
      conn2.rb_runtime_idx_mask = conn.rb_runtime_idx_mask ∧
      conn2.rb_runtime_shm_size = conn.rb_runtime_shm_size ∧
      conn2.cycles_per_us = conn.cycles_per_us := by
  unfold HiResConn.pop at hpop
  rw [hshm] at hpop
  by_cases he : shm.tail = shm.head
  · simp [he] at hpop
  · simp only [he, if_false] at hpop
    cases hsw : spinWait obs with
    | none => rw [hsw] at hpop; simp at hpop
    | some k =>
      rw [hsw] at hpop
      rw [Prod.mk.injEq] at hpop
      obtain ⟨h1, h2⟩ := hpop
      rw [Option.some.injEq] at h1
      subst h1
      subst h2
      refine ⟨_, rfl, rfl, rfl, fun hlt => Nat.mod_eq_of_lt hlt, rfl, rfl, rfl,
        rfl, rfl, rfl, ?_, ?_, ?_, ?_, rfl, rfl, rfl, rfl⟩
      · simp [writeSlot]
      · simp [writeSlot, and_notValid_valid]
      · simp [writeSlot, and_notValid_kernel]
      · intro j hj
        simp [writeSlot, hj]

/-- Witness for C10: popping the published kernel entry from `c10Ring`
(`head = 1`, `tail = 0`) satisfies every frame condition. -/
theorem c10_pop_frame_conditions_witness :
    ∃ shm2 : shared_ring_buffer_t,
      ((mkConn c10Ring).pop c10Obs).2.shm_buf = some shm2 ∧
      kernelEntry
        = c10Ring.buffer (c10Ring.tail &&& (mkConn c10Ring).rb_runtime_idx_mask) ∧
      shm2.tail = (c10Ring.tail + 1) % U64 ∧
      (c10Ring.tail + 1 < U64 → shm2.tail = c10Ring.tail + 1) ∧
      shm2.head = c10Ring.head ∧
      shm2.dropped_count = c10Ring.dropped_count ∧
      shm2.capacity = c10Ring.capacity ∧
      shm2.idx_mask = c10Ring.idx_mask ∧
      shm2.shm_size_bytes_unaligned = c10Ring.shm_size_bytes_unaligned ∧
      shm2.shm_size_bytes_aligned = c10Ring.shm_size_bytes_aligned ∧
      shm2.buffer (c10Ring.tail &&& (mkConn c10Ring).rb_runtime_idx_mask)
        = { c10Ring.buffer
              (c10Ring.tail &&& (mkConn c10Ring).rb_runtime_idx_mask) with
            flags := (c10Ring.buffer
              (c10Ring.tail &&& (mkConn c10Ring).rb_runtime_idx_mask)).flags
              &&& NOT_VALID_MASK } ∧
      (shm2.buffer (c10Ring.tail &&& (mkConn c10Ring).rb_runtime_idx_mask)).flags
        &&& LOG_FLAG_VALID = 0 ∧
      (shm2.buffer (c10Ring.tail &&& (mkConn c10Ring).rb_runtime_idx_mask)).flags
          &&& LOG_FLAG_KERNEL
        = (c10Ring.buffer
            (c10Ring.tail &&& (mkConn c10Ring).rb_runtime_idx_mask)).flags
          &&& LOG_FLAG_KERNEL ∧
      (∀ j, j ≠ c10Ring.tail &&& (mkConn c10Ring).rb_runtime_idx_mask →
        shm2.buffer j = c10Ring.buffer j) ∧
      ((mkConn c10Ring).pop c10Obs).2.rb_runtime_capacity
        = (mkConn c10Ring).rb_runtime_capacity ∧
      ((mkConn c10Ring).pop c10Obs).2.rb_runtime_idx_mask
        = (mkConn c10Ring).rb_runtime_idx_mask ∧
      ((mkConn c10Ring).pop c10Obs).2.rb_runtime_shm_size
        = (mkConn c10Ring).rb_runtime_shm_size ∧
      ((mkConn c10Ring).pop c10Obs).2.cycles_per_us
        = (mkConn c10Ring).cycles_per_us :=
  c10_pop_frame_conditions (mkConn c10Ring) ((mkConn c10Ring).pop c10Obs).2
    c10Ring c10Obs kernelEntry rfl
    (by rw [← show ((mkConn c10Ring).pop c10Obs).1 = some kernelEntry from by decide])

end HiResLogger
